import Mathlib

/-!
# ZWO EAF focuser driver (`3rdparty/indi-asi/asi_focuser.cpp`)

A shallow embedding of the motion / poll state machine of the `ASIEAF` driver class:
`Connect`, `readTemperature`, `readPosition`, `readMaxPosition`, `isMoving`, `gotoAbsolute`,
`MoveAbsFocuser`, `MoveRelFocuser`, `TimerHit` and `AbortFocuser`.

Conventions of the embedding.

* The driver object is the record `ASIEAF`; every member function takes the record and
  returns its C++ return value, the record afterwards and the list of externally visible
  actions it performed, in program order (`Event`).
* The vendor SDK (`EAF_focuser.h`) is an external collaborator.  Its answers are supplied by
  the record `EAF`: one answer per entry point, indexed by the arguments of the call.
* `FocusAbsPosN[0].value`, `FocusAbsPosN[0].max`, `FocusRelPosN[0].value` and `lastPos` are
  `double`s that only ever hold integers (every store in the file stores an `int` or a
  `uint32_t`); sums and differences of such values are exact in `double`, so they are
  modelled by `Int`.
* The class declaration (`asi_focuser.h`) is not part of the sources at hand; `targetPos`
  holds the `uint32_t` it is assigned and is modelled by `Nat`, like every `uint32_t`
  parameter.
* Temperatures are `float` / `double` values; they are modelled by exact rationals, and the
  literal `0.1` by the binary64 value nearest to it.
* `int32_t newPosition = <double>` converts a `double` to `int32_t`.  Inside the `int32_t`
  range the conversion is exact.  Outside C++ leaves it undefined; what the machine produces
  there is the parameter `oor` of `toInt32`.
-/

/-- Property state of the INDI property vectors (`IPState`); the file uses all four values. -/
inductive IPState
  | IPS_IDLE
  | IPS_OK
  | IPS_BUSY
  | IPS_ALERT
  deriving DecidableEq, Repr

/-- Modelled from the spec: the declaration of `FocusDirection` is in a header that is absent;
a relative move is requested `Inward` or `Outward`. -/
inductive FocusDirection
  | FOCUS_INWARD
  | FOCUS_OUTWARD
  deriving DecidableEq, Repr

/-- Modelled from the spec: `EAF_focuser.h` is absent.  Each SDK call returns `EAF_SUCCESS`
together with the value written through its output pointer, or a failure code different from
`EAF_SUCCESS` (and then the driver never looks at the output). -/
inductive EAFReply (α : Type)
  | EAF_SUCCESS (out : α)
  | EAF_ERROR (rc : Nat)
  deriving DecidableEq, Repr

/-- Modelled from the spec: the answers of the SDK entry points the driver calls
(`open`, `getTemperature`, `getPosition`, `getMaxStep`, `isMoving`, `move`, `stop`), as
functions of the arguments of the call.  Arguments are the values the driver passes, before
any conversion to the parameter types declared in the absent header. -/
structure EAF where
  EAFOpen : Int → EAFReply Unit
  EAFGetTemp : Int → EAFReply ℚ
  EAFGetPosition : Int → EAFReply Int
  EAFGetMaxStep : Int → EAFReply Int
  EAFIsMoving : Int → EAFReply Bool
  EAFMove : Int → Nat → EAFReply Unit
  EAFStop : Int → EAFReply Unit

/-- Externally visible actions of the driver: SDK calls, property publications
(`IDSetNumber`, with the value and the state of the vector at that moment), log lines and the
re-arming of the poll timer. -/
inductive Event
  | callEAFOpen (ID : Int)
  | callEAFGetTemp (ID : Int)
  | callEAFGetPosition (ID : Int)
  | callEAFGetMaxStep (ID : Int)
  | callEAFIsMoving (ID : Int)
  | callEAFMove (ID : Int) (iStep : Nat)
  | callEAFStop (ID : Int)
  | IDSetNumber_FocusAbsPosNP (value : Int) (s : IPState)
  | IDSetNumber_FocusRelPosNP (value : Int) (s : IPState)
  | IDSetNumber_TemperatureNP (value : ℚ) (s : IPState)
  | LOGF_ERROR (rc : Nat)
  | LOG_INFO
  | SetTimer (ms : Nat)
  deriving DecidableEq, Repr

/-- The members of the `ASIEAF` object (and of its base class) that the modelled functions
read or write.  `isConnected` and `POLLMS` belong to the base class. -/
structure ASIEAF where
  m_ID : Int
  m_MaxSteps : Int
  isConnected : Bool
  POLLMS : Nat
  FocusAbsPosN_value : Int
  FocusAbsPosN_max : Int
  FocusAbsPosNP_s : IPState
  FocusRelPosN_value : Int
  FocusRelPosNP_s : IPState
  TemperatureN_value : ℚ
  TemperatureNP_s : IPState
  targetPos : Nat
  lastPos : Int
  lastTemperature : ℚ
  deriving DecidableEq, Repr

/-- Least value of `int32_t`. -/
def INT32_MIN : Int := -2147483648

/-- Greatest value of `int32_t`. -/
def INT32_MAX : Int := 2147483647

/-- Conversion of an integral `double` to `int32_t`: exact inside the range of `int32_t`;
outside, the value `oor x` that the machine produces. -/
def toInt32 (oor : Int → Int) (x : Int) : Int :=
  if INT32_MIN ≤ x ∧ x ≤ INT32_MAX then x else oor x

/-- Out-of-range result of the x86-64 conversion instruction `cvttsd2si` with a 32-bit
destination: the "integer indefinite" value `0x80000000`. -/
def x86_64 : Int → Int := fun _ => INT32_MIN

/-- Out-of-range result of a saturating conversion (AArch64 `fcvtzs`). -/
def aarch64 : Int → Int := fun x => if x < INT32_MIN then INT32_MIN else INT32_MAX

/-- Out-of-range result of a conversion that keeps the low 32 bits of the integer value
(two's-complement wrap-around). -/
def wrap32 : Int → Int := fun x => (x + 2147483648) % 4294967296 - 2147483648

/-- Conversion of an `int32_t` to `uint32_t` (the parameter type of `gotoAbsolute`): the
value modulo `2^32`. -/
def toUInt32 (x : Int) : Nat := (x % 4294967296).toNat

/-- The constant `0.1` as a `double`: the nearest binary64 value, `0x3FB999999999999A`. -/
def DBL_0_1 : ℚ := 3602879701896397 / 36028797018963968

/-- The three-valued `motionStatus` of the specification's data model,
`Idle | Busy | Alert`: vocabulary of the specification, not a type of the driver. -/
inductive MotionStatus
  | Idle
  | Busy
  | Alert
  deriving DecidableEq, Repr

/-- The specification's `motionStatus` of a property state of the driver: `IPS_BUSY` is
`Busy`, `IPS_ALERT` is `Alert`, and the two settled states `IPS_IDLE` and `IPS_OK` are
`Idle`. -/
def specMotionStatus : IPState → MotionStatus
  | IPState.IPS_IDLE => MotionStatus.Idle
  | IPState.IPS_OK => MotionStatus.Idle
  | IPState.IPS_BUSY => MotionStatus.Busy
  | IPState.IPS_ALERT => MotionStatus.Alert

namespace ASIEAF

open IPState FocusDirection EAFReply

/-- Embedding of `bool ASIEAF::readMaxPosition()`. -/
def readMaxPosition (hw : EAF) (s : ASIEAF) : Bool × ASIEAF × List Event :=
  match hw.EAFGetMaxStep s.m_ID with
  | EAF_ERROR rc => (false, s, [Event.callEAFGetMaxStep s.m_ID, Event.LOGF_ERROR rc])
  | EAF_SUCCESS max =>
    (true, { s with FocusAbsPosN_max := max }, [Event.callEAFGetMaxStep s.m_ID])

/-- Embedding of `bool ASIEAF::Connect()`: the result of `readMaxPosition` is discarded. -/
def Connect (hw : EAF) (s : ASIEAF) : Bool × ASIEAF × List Event :=
  match hw.EAFOpen s.m_ID with
  | EAF_ERROR rc => (false, s, [Event.callEAFOpen s.m_ID, Event.LOGF_ERROR rc])
  | EAF_SUCCESS _ =>
    let r := readMaxPosition hw s
    (true, r.2.1, Event.callEAFOpen s.m_ID :: r.2.2)

/-- Embedding of `bool ASIEAF::readTemperature()`. -/
def readTemperature (hw : EAF) (s : ASIEAF) : Bool × ASIEAF × List Event :=
  match hw.EAFGetTemp s.m_ID with
  | EAF_ERROR rc => (false, s, [Event.callEAFGetTemp s.m_ID, Event.LOGF_ERROR rc])
  | EAF_SUCCESS temperature =>
    (true, { s with TemperatureN_value := temperature }, [Event.callEAFGetTemp s.m_ID])

/-- Embedding of `bool ASIEAF::readPosition()`. -/
def readPosition (hw : EAF) (s : ASIEAF) : Bool × ASIEAF × List Event :=
  match hw.EAFGetPosition s.m_ID with
  | EAF_ERROR rc => (false, s, [Event.callEAFGetPosition s.m_ID, Event.LOGF_ERROR rc])
  | EAF_SUCCESS step =>
    (true, { s with FocusAbsPosN_value := step }, [Event.callEAFGetPosition s.m_ID])

/-- Embedding of `bool ASIEAF::isMoving()`: a failed query returns `false`, like a successful
query that reports no motion. -/
def isMoving (hw : EAF) (s : ASIEAF) : Bool × List Event :=
  match hw.EAFIsMoving s.m_ID with
  | EAF_ERROR rc => (false, [Event.callEAFIsMoving s.m_ID, Event.LOGF_ERROR rc])
  | EAF_SUCCESS moving => (moving, [Event.callEAFIsMoving s.m_ID])

/-- Embedding of `bool ASIEAF::gotoAbsolute(uint32_t position)`. -/
def gotoAbsolute (hw : EAF) (s : ASIEAF) (position : Nat) : Bool × List Event :=
  match hw.EAFMove s.m_ID position with
  | EAF_ERROR rc => (false, [Event.callEAFMove s.m_ID position, Event.LOGF_ERROR rc])
  | EAF_SUCCESS _ => (true, [Event.callEAFMove s.m_ID position])

/-- Embedding of `IPState ASIEAF::MoveAbsFocuser(uint32_t targetTicks)`. -/
def MoveAbsFocuser (hw : EAF) (s : ASIEAF) (targetTicks : Nat) : IPState × ASIEAF × List Event :=
  let s1 := { s with targetPos := targetTicks }
  let r := gotoAbsolute hw s1 s1.targetPos
  if !r.1 then (IPS_ALERT, s1, r.2)
  else (IPS_BUSY, s1, r.2)

/-- Embedding of `IPState ASIEAF::MoveRelFocuser(FocusDirection dir, uint32_t ticks)`.
The sum or difference is formed in `double` and narrowed to `int32_t` by the assignment to
`newPosition`; the clamp works on `int32_t`; `gotoAbsolute` takes a `uint32_t`. -/
def MoveRelFocuser (oor : Int → Int) (hw : EAF) (s : ASIEAF) (dir : FocusDirection)
    (ticks : Nat) : IPState × ASIEAF × List Event :=
  let newPosition : Int :=
    if dir = FOCUS_INWARD then toInt32 oor (s.FocusAbsPosN_value - (ticks : Int))
    else toInt32 oor (s.FocusAbsPosN_value + (ticks : Int))
  let newPosition : Int := max 0 (min (toInt32 oor s.FocusAbsPosN_max) newPosition)
  let r := gotoAbsolute hw s (toUInt32 newPosition)
  if !r.1 then (IPS_ALERT, s, r.2)
  else
    (IPS_BUSY, { s with FocusRelPosN_value := (ticks : Int), FocusRelPosNP_s := IPS_BUSY }, r.2)

/-- Embedding of `bool ASIEAF::AbortFocuser()`. -/
def AbortFocuser (hw : EAF) (s : ASIEAF) : Bool × ASIEAF × List Event :=
  match hw.EAFStop s.m_ID with
  | EAF_ERROR rc => (false, s, [Event.callEAFStop s.m_ID, Event.LOGF_ERROR rc])
  | EAF_SUCCESS _ => (true, s, [Event.callEAFStop s.m_ID])

/-- Embedding of `void ASIEAF::TimerHit()`.  When the driver is not connected only the timer
is re-armed.  Otherwise, in order: `readPosition()` and the position telemetry test
`fabs(lastPos - FocusAbsPosN[0].value) > 5`; `readTemperature()` and the temperature telemetry
test `fabs(lastTemperature - TemperatureN[0].value) >= 0.1`; completion detection while either
property is `IPS_BUSY`; `SetTimer(POLLMS)`. -/
def TimerHit (hw : EAF) (s : ASIEAF) : ASIEAF × List Event :=
  if !s.isConnected then (s, [Event.SetTimer s.POLLMS])
  else
    let rp := readPosition hw s
    let p : ASIEAF × List Event :=
      if rp.1 then
        if |rp.2.1.lastPos - rp.2.1.FocusAbsPosN_value| > 5 then
          ({ rp.2.1 with lastPos := rp.2.1.FocusAbsPosN_value },
            rp.2.2 ++
              [Event.IDSetNumber_FocusAbsPosNP rp.2.1.FocusAbsPosN_value rp.2.1.FocusAbsPosNP_s])
        else (rp.2.1, rp.2.2)
      else (rp.2.1, rp.2.2)
    let rt := readTemperature hw p.1
    let t : ASIEAF × List Event :=
      if rt.1 then
        if |rt.2.1.lastTemperature - rt.2.1.TemperatureN_value| ≥ DBL_0_1 then
          ({ rt.2.1 with lastTemperature := rt.2.1.TemperatureN_value },
            rt.2.2 ++
              [Event.IDSetNumber_TemperatureNP rt.2.1.TemperatureN_value rt.2.1.TemperatureNP_s])
        else (rt.2.1, rt.2.2)
      else (rt.2.1, rt.2.2)
    let m : ASIEAF × List Event :=
      if t.1.FocusAbsPosNP_s = IPS_BUSY ∨ t.1.FocusRelPosNP_s = IPS_BUSY then
        let mv := isMoving hw t.1
        if !mv.1 then
          let s1 := { t.1 with FocusAbsPosNP_s := IPS_OK, FocusRelPosNP_s := IPS_OK }
          ({ s1 with lastPos := s1.FocusAbsPosN_value },
            mv.2 ++ [Event.IDSetNumber_FocusAbsPosNP s1.FocusAbsPosN_value s1.FocusAbsPosNP_s,
                     Event.IDSetNumber_FocusRelPosNP s1.FocusRelPosN_value s1.FocusRelPosNP_s,
                     Event.LOG_INFO])
        else (t.1, mv.2)
      else (t.1, [])
    (m.1, p.2 ++ t.2 ++ m.2 ++ [Event.SetTimer m.1.POLLMS])

/-- First block of `TimerHit` on its own (lines 440-448), for the proofs: `readPosition()`
followed by the position telemetry test. -/
def timerPosition (hw : EAF) (s : ASIEAF) : ASIEAF × List Event :=
  let rp := readPosition hw s
  if rp.1 then
    if |rp.2.1.lastPos - rp.2.1.FocusAbsPosN_value| > 5 then
      ({ rp.2.1 with lastPos := rp.2.1.FocusAbsPosN_value },
        rp.2.2 ++
          [Event.IDSetNumber_FocusAbsPosNP rp.2.1.FocusAbsPosN_value rp.2.1.FocusAbsPosNP_s])
    else (rp.2.1, rp.2.2)
  else (rp.2.1, rp.2.2)

/-- Second block of `TimerHit` on its own (lines 450-458), for the proofs:
`readTemperature()` followed by the temperature telemetry test. -/
def timerTemperature (hw : EAF) (s : ASIEAF) : ASIEAF × List Event :=
  let rt := readTemperature hw s
  if rt.1 then
    if |rt.2.1.lastTemperature - rt.2.1.TemperatureN_value| ≥ DBL_0_1 then
      ({ rt.2.1 with lastTemperature := rt.2.1.TemperatureN_value },
        rt.2.2 ++
          [Event.IDSetNumber_TemperatureNP rt.2.1.TemperatureN_value rt.2.1.TemperatureNP_s])
    else (rt.2.1, rt.2.2)
  else (rt.2.1, rt.2.2)

/-- Third block of `TimerHit` on its own (lines 460-471), for the proofs: completion
detection while either property is `IPS_BUSY`. -/
def timerMotion (hw : EAF) (s : ASIEAF) : ASIEAF × List Event :=
  if s.FocusAbsPosNP_s = IPS_BUSY ∨ s.FocusRelPosNP_s = IPS_BUSY then
    let mv := isMoving hw s
    if !mv.1 then
      let s1 := { s with FocusAbsPosNP_s := IPS_OK, FocusRelPosNP_s := IPS_OK }
      ({ s1 with lastPos := s1.FocusAbsPosN_value },
        mv.2 ++ [Event.IDSetNumber_FocusAbsPosNP s1.FocusAbsPosN_value s1.FocusAbsPosNP_s,
                 Event.IDSetNumber_FocusRelPosNP s1.FocusRelPosN_value s1.FocusRelPosNP_s,
                 Event.LOG_INFO])
    else (s, mv.2)
  else (s, [])

end ASIEAF

/-- Whether a trace publishes the absolute position (`IDSetNumber(&FocusAbsPosNP, ...)`). -/
def publishesPosition (out : List Event) : Bool :=
  out.any fun e => match e with
    | Event.IDSetNumber_FocusAbsPosNP _ _ => true
    | _ => false

/-- Whether a trace publishes the temperature (`IDSetNumber(&TemperatureNP, ...)`). -/
def publishesTemperature (out : List Event) : Bool :=
  out.any fun e => match e with
    | Event.IDSetNumber_TemperatureNP _ _ => true
    | _ => false

/-- The hardware move commands of a trace (the `iStep` arguments of `EAFMove`), in order. -/
def moveCommands (out : List Event) : List Nat :=
  out.filterMap fun e => match e with
    | Event.callEAFMove _ iStep => some iStep
    | _ => none

/-- A sample SDK: every call succeeds; position 10, max step 50000, 20 degrees, not moving. -/
def hwOk : EAF where
  EAFOpen := fun _ => EAFReply.EAF_SUCCESS ()
  EAFGetTemp := fun _ => EAFReply.EAF_SUCCESS 20
  EAFGetPosition := fun _ => EAFReply.EAF_SUCCESS 10
  EAFGetMaxStep := fun _ => EAFReply.EAF_SUCCESS 50000
  EAFIsMoving := fun _ => EAFReply.EAF_SUCCESS false
  EAFMove := fun _ _ => EAFReply.EAF_SUCCESS ()
  EAFStop := fun _ => EAFReply.EAF_SUCCESS ()

/-- A sample driver state: connected, at position 10 of 1000, everything settled. -/
def st0 : ASIEAF where
  m_ID := 0
  m_MaxSteps := 1000
  isConnected := true
  POLLMS := 500
  FocusAbsPosN_value := 10
  FocusAbsPosN_max := 1000
  FocusAbsPosNP_s := IPState.IPS_OK
  FocusRelPosN_value := 0
  FocusRelPosNP_s := IPState.IPS_OK
  TemperatureN_value := 20
  TemperatureNP_s := IPState.IPS_OK
  targetPos := 0
  lastPos := 10
  lastTemperature := 20

/-- A driver state like `st0` whose travel bound is negative. -/
def stNegMax : ASIEAF := { st0 with FocusAbsPosN_max := -1 }

/-- A sample SDK that refuses every move command with code 7 and answers like `hwOk`
otherwise. -/
def hwMoveFails : EAF := { hwOk with EAFMove := fun _ _ => EAFReply.EAF_ERROR 7 }

/-- A sample SDK whose stop command fails with code 3 and that answers like `hwOk`
otherwise. -/
def hwStopFails : EAF := { hwOk with EAFStop := fun _ => EAFReply.EAF_ERROR 3 }

/-- A driver state like `st0` in the middle of a move: both motion states `IPS_BUSY`. -/
def stBusy : ASIEAF :=
  { st0 with FocusAbsPosNP_s := IPState.IPS_BUSY, FocusRelPosNP_s := IPState.IPS_BUSY }

/-- A sample SDK that opens the device but fails to report the maximum step (code 1). -/
def hwNoMaxStep : EAF := { hwOk with EAFGetMaxStep := fun _ => EAFReply.EAF_ERROR 1 }

/-- A sample SDK whose open call fails with code 2. -/
def hwOpenFails : EAF := { hwOk with EAFOpen := fun _ => EAFReply.EAF_ERROR 2 }

/-- A sample SDK whose is-moving query fails with code 5 and that answers like `hwOk`
otherwise. -/
def hwIsMovingFails : EAF := { hwOk with EAFIsMoving := fun _ => EAFReply.EAF_ERROR 5 }

/-- A sample SDK whose temperature read succeeds with the invalid reading `-273` and that
answers like `hwOk` otherwise. -/
def hwSentinel : EAF := { hwOk with EAFGetTemp := fun _ => EAFReply.EAF_SUCCESS (-273) }

/-- A sample SDK that reports position `p` and answers like `hwOk` otherwise. -/
def hwPosition (p : Int) : EAF := { hwOk with EAFGetPosition := fun _ => EAFReply.EAF_SUCCESS p }

/-- A sample SDK whose position and temperature reads fail (codes 4 and 6) and that answers
like `hwOk` otherwise. -/
def hwReadsFail : EAF :=
  { hwOk with EAFGetPosition := fun _ => EAFReply.EAF_ERROR 4,
              EAFGetTemp := fun _ => EAFReply.EAF_ERROR 6 }

/-- A driver state like `st0` at position 100, last published at 100. -/
def st100 : ASIEAF := { st0 with FocusAbsPosN_value := 100, lastPos := 100 }

open ASIEAF IPState FocusDirection EAFReply

/-- Inside the range of `int32_t` the conversion from `double` is the identity, whatever the
machine does outside. -/
theorem toInt32_of_inRange (oor : Int → Int) (x : Int) (h1 : INT32_MIN ≤ x)
    (h2 : x ≤ INT32_MAX) : toInt32 oor x = x := by
  simp [toInt32, h1, h2]

/-- A value between `0` and `INT32_MAX` passes unchanged to a `uint32_t` parameter. -/
theorem toUInt32_of_nonneg (x : Int) (h0 : 0 ≤ x) (h1 : x ≤ INT32_MAX) :
    ((toUInt32 x : Nat) : Int) = x := by
  unfold toUInt32 INT32_MAX at *
  rw [Int.toNat_of_nonneg (by omega)]
  omega

/-- The trace of `gotoAbsolute` holds exactly one move command, the requested position. -/
theorem moveCommands_gotoAbsolute (hw : EAF) (s : ASIEAF) (position : Nat) :
    moveCommands (gotoAbsolute hw s position).2 = [position] := by
  unfold gotoAbsolute
  cases hw.EAFMove s.m_ID position <;> simp [moveCommands]

/-- The trace of `MoveRelFocuser` holds exactly one move command: the clamped `int32_t`
position, passed as a `uint32_t`. -/
theorem moveCommands_MoveRelFocuser (oor : Int → Int) (hw : EAF) (s : ASIEAF)
    (dir : FocusDirection) (ticks : Nat) :
    moveCommands (MoveRelFocuser oor hw s dir ticks).2.2 =
      [toUInt32 (max 0 (min (toInt32 oor s.FocusAbsPosN_max)
        (if dir = FOCUS_INWARD then toInt32 oor (s.FocusAbsPosN_value - (ticks : Int))
         else toInt32 oor (s.FocusAbsPosN_value + (ticks : Int)))))] := by
  unfold MoveRelFocuser
  simp only []
  split_ifs <;> exact moveCommands_gotoAbsolute _ _ _

/-- A concatenated trace publishes the position when one of its parts does. -/
theorem publishesPosition_append (a b : List Event) :
    publishesPosition (a ++ b) = (publishesPosition a || publishesPosition b) := by
  simp [publishesPosition, List.any_append]

/-- A concatenated trace publishes the temperature when one of its parts does. -/
theorem publishesTemperature_append (a b : List Event) :
    publishesTemperature (a ++ b) = (publishesTemperature a || publishesTemperature b) := by
  simp [publishesTemperature, List.any_append]

/-- The body of `TimerHit` is its three blocks in sequence, followed by `SetTimer`. -/
theorem TimerHit_eq (hw : EAF) (s : ASIEAF) :
    TimerHit hw s =
      if !s.isConnected then (s, [Event.SetTimer s.POLLMS])
      else
        (( timerMotion hw (timerTemperature hw (timerPosition hw s).1).1).1,
          (timerPosition hw s).2 ++ (timerTemperature hw (timerPosition hw s).1).2 ++
            (timerMotion hw (timerTemperature hw (timerPosition hw s).1).1).2 ++
            [Event.SetTimer
              (timerMotion hw (timerTemperature hw (timerPosition hw s).1).1).1.POLLMS]) :=
  rfl

/-- Position block when the read succeeds with value `p`. -/
theorem timerPosition_of_success (hw : EAF) (s : ASIEAF) (p : Int)
    (hp : hw.EAFGetPosition s.m_ID = EAF_SUCCESS p) :
    timerPosition hw s =
      if |s.lastPos - p| > 5 then
        ({ s with FocusAbsPosN_value := p, lastPos := p },
          [Event.callEAFGetPosition s.m_ID,
           Event.IDSetNumber_FocusAbsPosNP p s.FocusAbsPosNP_s])
      else ({ s with FocusAbsPosN_value := p }, [Event.callEAFGetPosition s.m_ID]) := by
  simp [timerPosition, readPosition, hp]

/-- Position block when the read fails: nothing changes, nothing is published. -/
theorem timerPosition_of_error (hw : EAF) (s : ASIEAF) (rc : Nat)
    (hp : hw.EAFGetPosition s.m_ID = EAF_ERROR rc) :
    timerPosition hw s = (s, [Event.callEAFGetPosition s.m_ID, Event.LOGF_ERROR rc]) := by
  simp [timerPosition, readPosition, hp]

/-- Temperature block when the read succeeds with value `c`. -/
theorem timerTemperature_of_success (hw : EAF) (s : ASIEAF) (c : ℚ)
    (ht : hw.EAFGetTemp s.m_ID = EAF_SUCCESS c) :
    timerTemperature hw s =
      if |s.lastTemperature - c| ≥ DBL_0_1 then
        ({ s with TemperatureN_value := c, lastTemperature := c },
          [Event.callEAFGetTemp s.m_ID, Event.IDSetNumber_TemperatureNP c s.TemperatureNP_s])
      else ({ s with TemperatureN_value := c }, [Event.callEAFGetTemp s.m_ID]) := by
  simp [timerTemperature, readTemperature, ht]

/-- Temperature block when the read fails: nothing changes, nothing is published. -/
theorem timerTemperature_of_error (hw : EAF) (s : ASIEAF) (rc : Nat)
    (ht : hw.EAFGetTemp s.m_ID = EAF_ERROR rc) :
    timerTemperature hw s = (s, [Event.callEAFGetTemp s.m_ID, Event.LOGF_ERROR rc]) := by
  simp [timerTemperature, readTemperature, ht]

/-- What the position block leaves alone. -/
theorem timerPosition_frame (hw : EAF) (s : ASIEAF) :
    (timerPosition hw s).1.m_ID = s.m_ID ∧
    (timerPosition hw s).1.FocusAbsPosNP_s = s.FocusAbsPosNP_s ∧
    (timerPosition hw s).1.FocusRelPosNP_s = s.FocusRelPosNP_s ∧
    (timerPosition hw s).1.lastTemperature = s.lastTemperature ∧
    (timerPosition hw s).1.TemperatureN_value = s.TemperatureN_value ∧
    (timerPosition hw s).1.TemperatureNP_s = s.TemperatureNP_s ∧
    publishesTemperature (timerPosition hw s).2 = false := by
  cases hp : hw.EAFGetPosition s.m_ID with
  | EAF_SUCCESS p =>
    rw [timerPosition_of_success hw s p hp]
    split_ifs <;> simp [publishesTemperature]
  | EAF_ERROR rc =>
    rw [timerPosition_of_error hw s rc hp]
    simp [publishesTemperature]

/-- What the temperature block leaves alone. -/
theorem timerTemperature_frame (hw : EAF) (s : ASIEAF) :
    (timerTemperature hw s).1.m_ID = s.m_ID ∧
    (timerTemperature hw s).1.FocusAbsPosNP_s = s.FocusAbsPosNP_s ∧
    (timerTemperature hw s).1.FocusRelPosNP_s = s.FocusRelPosNP_s ∧
    (timerTemperature hw s).1.FocusAbsPosN_value = s.FocusAbsPosN_value ∧
    (timerTemperature hw s).1.lastPos = s.lastPos ∧
    publishesPosition (timerTemperature hw s).2 = false := by
  cases ht : hw.EAFGetTemp s.m_ID with
  | EAF_SUCCESS c =>
    rw [timerTemperature_of_success hw s c ht]
    split_ifs <;> simp [publishesPosition]
  | EAF_ERROR rc =>
    rw [timerTemperature_of_error hw s rc ht]
    simp [publishesPosition]

/-- Motion block when a property is busy and `isMoving()` returns `false`: both properties
become `IPS_OK`, both are published, `lastPos` is reset to the current value. -/
theorem timerMotion_of_stopped (hw : EAF) (s : ASIEAF)
    (hb : s.FocusAbsPosNP_s = IPS_BUSY ∨ s.FocusRelPosNP_s = IPS_BUSY)
    (hm : (isMoving hw s).1 = false) :
    timerMotion hw s =
      ({ s with FocusAbsPosNP_s := IPS_OK, FocusRelPosNP_s := IPS_OK,
                lastPos := s.FocusAbsPosN_value },
        (isMoving hw s).2 ++
          [Event.IDSetNumber_FocusAbsPosNP s.FocusAbsPosN_value IPS_OK,
           Event.IDSetNumber_FocusRelPosNP s.FocusRelPosN_value IPS_OK,
           Event.LOG_INFO]) := by
  simp [timerMotion, hb, hm]

/-- Motion block when no completion is detected (nothing busy, or the hardware reports
motion): the object is unchanged and no position is published. -/
theorem timerMotion_of_no_completion (hw : EAF) (s : ASIEAF)
    (hn : (s.FocusAbsPosNP_s ≠ IPS_BUSY ∧ s.FocusRelPosNP_s ≠ IPS_BUSY) ∨
      hw.EAFIsMoving s.m_ID = EAF_SUCCESS true) :
    (timerMotion hw s).1 = s ∧ publishesPosition (timerMotion hw s).2 = false := by
  unfold timerMotion
  rcases hn with ⟨h1, h2⟩ | hmv
  · simp [h1, h2, publishesPosition]
  · split_ifs <;> simp_all [isMoving, publishesPosition]

/-- What the motion block leaves alone. -/
theorem timerMotion_frame (hw : EAF) (s : ASIEAF) :
    (timerMotion hw s).1.lastTemperature = s.lastTemperature ∧
    (timerMotion hw s).1.TemperatureN_value = s.TemperatureN_value ∧
    (timerMotion hw s).1.FocusAbsPosN_value = s.FocusAbsPosN_value ∧
    publishesTemperature (timerMotion hw s).2 = false := by
  unfold timerMotion isMoving
  cases hw.EAFIsMoving s.m_ID with
  | EAF_SUCCESS mv => cases mv <;> split_ifs <;> simp_all [publishesTemperature]
  | EAF_ERROR rc => split_ifs <;> simp_all [publishesTemperature]

/-- Completion branch of a connected tick: whenever a property is busy and `isMoving()`
returns `false` (the hardware reports no motion, or the query failed), both properties end
`IPS_OK`, the position is published and `lastPos` is the current position. -/
theorem TimerHit_of_isMoving_false (hw : EAF) (s : ASIEAF) (hc : s.isConnected = true)
    (hb : s.FocusAbsPosNP_s = IPS_BUSY ∨ s.FocusRelPosNP_s = IPS_BUSY)
    (hm : (isMoving hw s).1 = false) :
    (TimerHit hw s).1.FocusAbsPosNP_s = IPS_OK ∧
    (TimerHit hw s).1.FocusRelPosNP_s = IPS_OK ∧
    Event.IDSetNumber_FocusAbsPosNP (TimerHit hw s).1.FocusAbsPosN_value IPS_OK
      ∈ (TimerHit hw s).2 ∧
    publishesPosition (TimerHit hw s).2 = true ∧
    Event.LOG_INFO ∈ (TimerHit hw s).2 ∧
    (TimerHit hw s).1.lastPos = (TimerHit hw s).1.FocusAbsPosN_value := by
  obtain ⟨hp1, hp2, hp3, -⟩ := timerPosition_frame hw s
  obtain ⟨ht1, ht2, ht3, -⟩ := timerTemperature_frame hw (timerPosition hw s).1
  have hb2 : (timerTemperature hw (timerPosition hw s).1).1.FocusAbsPosNP_s = IPS_BUSY ∨
      (timerTemperature hw (timerPosition hw s).1).1.FocusRelPosNP_s = IPS_BUSY := by
    rw [ht2, ht3, hp2, hp3]
    exact hb
  have hm2 : (isMoving hw (timerTemperature hw (timerPosition hw s).1).1).1 = false := by
    unfold isMoving at hm ⊢
    rw [ht1, hp1]
    exact hm
  rw [TimerHit_eq]
  simp only [hc, Bool.not_true, Bool.false_eq_true, if_false]
  rw [timerMotion_of_stopped hw _ hb2 hm2]
  simp [publishesPosition]

/-- Temperature telemetry of a connected tick whose temperature read succeeds with value
`c`: the temperature is published exactly when `fabs(lastTemperature - c) >= 0.1`, and then
`lastTemperature` becomes `c`; no value of `c` is exempt. -/
theorem TimerHit_temperature_filter (hw : EAF) (s : ASIEAF) (c : ℚ)
    (hc : s.isConnected = true) (ht : hw.EAFGetTemp s.m_ID = EAF_SUCCESS c) :
    (publishesTemperature (TimerHit hw s).2 = true ↔ |s.lastTemperature - c| ≥ DBL_0_1) ∧
    (|s.lastTemperature - c| ≥ DBL_0_1 → (TimerHit hw s).1.lastTemperature = c ∧
      Event.IDSetNumber_TemperatureNP c s.TemperatureNP_s ∈ (TimerHit hw s).2) ∧
    (¬ |s.lastTemperature - c| ≥ DBL_0_1 →
      (TimerHit hw s).1.lastTemperature = s.lastTemperature) := by
  obtain ⟨hp1, -, -, hp4, -, hp6, hp7⟩ := timerPosition_frame hw s
  obtain ⟨hm1, -, -, hm4⟩ := timerMotion_frame hw (timerTemperature hw (timerPosition hw s).1).1
  have ht2 : hw.EAFGetTemp (timerPosition hw s).1.m_ID = EAF_SUCCESS c := by
    rw [hp1]
    exact ht
  rw [TimerHit_eq]
  simp only [hc, Bool.not_true, Bool.false_eq_true, if_false]
  rw [hm1, publishesTemperature_append, publishesTemperature_append,
    publishesTemperature_append, hp7, hm4, timerTemperature_of_success hw _ c ht2, hp4, hp6]
  split_ifs with h <;> simp [publishesTemperature, h]

/-- Failed position and temperature reads in a connected tick change nothing themselves and
do not end the tick: both reads are attempted and logged, the motion block runs on the
unchanged object, and the timer is re-armed. -/
theorem TimerHit_failed_reads (hw : EAF) (s : ASIEAF) (rc1 rc2 : Nat)
    (hc : s.isConnected = true) (hp : hw.EAFGetPosition s.m_ID = EAF_ERROR rc1)
    (ht : hw.EAFGetTemp s.m_ID = EAF_ERROR rc2) :
    TimerHit hw s =
      ((timerMotion hw s).1,
        [Event.callEAFGetPosition s.m_ID, Event.LOGF_ERROR rc1] ++
          [Event.callEAFGetTemp s.m_ID, Event.LOGF_ERROR rc2] ++
          (timerMotion hw s).2 ++ [Event.SetTimer (timerMotion hw s).1.POLLMS]) := by
  rw [TimerHit_eq]
  simp only [hc, Bool.not_true, Bool.false_eq_true, if_false]
  rw [timerPosition_of_error hw s rc1 hp]
  simp only []
  rw [timerTemperature_of_error hw s rc2 ht]

/-- Failed reads on the settled sample driver: the object is unchanged. -/
theorem TimerHit_failed_reads_witness :
    (TimerHit hwReadsFail st0).1 = st0 := by
  rw [TimerHit_failed_reads hwReadsFail st0 4 6 rfl rfl rfl]
  rfl

/-- Relative moves whose sum or difference fits `int32_t` command exactly the clamped target:
for a travel bound in `[0, INT32_MAX]`, the single move command is
`max 0 (min max (value - ticks))` for `FOCUS_INWARD` and `max 0 (min max (value + ticks))`
otherwise, whatever the machine does with out-of-range conversions. -/
theorem MoveRelFocuser_target_of_fits (oor : Int → Int) (hw : EAF) (s : ASIEAF)
    (dir : FocusDirection) (ticks : Nat)
    (hmax0 : 0 ≤ s.FocusAbsPosN_max) (hmax1 : s.FocusAbsPosN_max ≤ INT32_MAX)
    (hlo : INT32_MIN ≤ (if dir = FOCUS_INWARD then s.FocusAbsPosN_value - (ticks : Int)
      else s.FocusAbsPosN_value + (ticks : Int)))
    (hhi : (if dir = FOCUS_INWARD then s.FocusAbsPosN_value - (ticks : Int)
      else s.FocusAbsPosN_value + (ticks : Int)) ≤ INT32_MAX) :
    ∃ t : Nat, moveCommands (MoveRelFocuser oor hw s dir ticks).2.2 = [t] ∧
      (t : Int) = max 0 (min s.FocusAbsPosN_max
        (if dir = FOCUS_INWARD then s.FocusAbsPosN_value - (ticks : Int)
         else s.FocusAbsPosN_value + (ticks : Int))) := by
  refine ⟨_, moveCommands_MoveRelFocuser oor hw s dir ticks, ?_⟩
  rw [toInt32_of_inRange oor _ (by unfold INT32_MIN; omega) hmax1]
  have hcv : (if dir = FOCUS_INWARD then toInt32 oor (s.FocusAbsPosN_value - (ticks : Int))
      else toInt32 oor (s.FocusAbsPosN_value + (ticks : Int))) =
      (if dir = FOCUS_INWARD then s.FocusAbsPosN_value - (ticks : Int)
      else s.FocusAbsPosN_value + (ticks : Int)) := by
    split_ifs with hd
    · rw [if_pos hd] at hlo hhi
      exact toInt32_of_inRange oor _ hlo hhi
    · rw [if_neg hd] at hlo hhi
      exact toInt32_of_inRange oor _ hlo hhi
  rw [hcv]
  apply toUInt32_of_nonneg
  · exact le_max_left _ _
  · exact max_le (by unfold INT32_MAX; omega) (le_trans (min_le_left _ _) hmax1)

/-- The scenario of the specification: bound 1000, position 10, inward by 50 commands 0. -/
theorem MoveRelFocuser_target_of_fits_witness :
    ∃ t : Nat, moveCommands (MoveRelFocuser x86_64 hwOk st0 FOCUS_INWARD 50).2.2 = [t] ∧
      (t : Int) = max 0 (min st0.FocusAbsPosN_max
        (if FOCUS_INWARD = FOCUS_INWARD then st0.FocusAbsPosN_value - ((50 : Nat) : Int)
         else st0.FocusAbsPosN_value + ((50 : Nat) : Int))) :=
  MoveRelFocuser_target_of_fits x86_64 hwOk st0 FOCUS_INWARD 50 (by decide) (by decide)
    (by decide) (by decide)

/-- On a machine whose conversion saturates, relative moves command exactly the clamped
target for every position and bound in `[0, INT32_MAX]` and every 32-bit delta. -/
theorem MoveRelFocuser_target_of_saturating (hw : EAF) (s : ASIEAF)
    (dir : FocusDirection) (ticks : Nat)
    (hmax0 : 0 ≤ s.FocusAbsPosN_max) (hmax1 : s.FocusAbsPosN_max ≤ INT32_MAX)
    (hpos0 : 0 ≤ s.FocusAbsPosN_value) (hpos1 : s.FocusAbsPosN_value ≤ INT32_MAX) :
    ∃ t : Nat, moveCommands (MoveRelFocuser aarch64 hw s dir ticks).2.2 = [t] ∧
      (t : Int) = max 0 (min s.FocusAbsPosN_max
        (if dir = FOCUS_INWARD then s.FocusAbsPosN_value - (ticks : Int)
         else s.FocusAbsPosN_value + (ticks : Int))) := by
  refine ⟨_, moveCommands_MoveRelFocuser aarch64 hw s dir ticks, ?_⟩
  rw [toInt32_of_inRange aarch64 _ (by unfold INT32_MIN; omega) hmax1]
  rw [toUInt32_of_nonneg _ (le_max_left _ _)
    (max_le (by unfold INT32_MAX; omega) (le_trans (min_le_left _ _) hmax1))]
  unfold INT32_MAX at hmax1 hpos1
  cases dir <;> simp only [toInt32, aarch64, INT32_MIN, INT32_MAX, if_true, if_false,
    reduceCtorEq] <;> split_ifs <;> omega

/-- The saturating case at bound 1000, position 10, outward by `2^31` ticks: target 1000. -/
theorem MoveRelFocuser_target_of_saturating_witness :
    ∃ t : Nat,
      moveCommands (MoveRelFocuser aarch64 hwOk st0 FOCUS_OUTWARD 2147483648).2.2 = [t] ∧
      (t : Int) = max 0 (min st0.FocusAbsPosN_max
        (if FOCUS_OUTWARD = FOCUS_INWARD then st0.FocusAbsPosN_value - ((2147483648 : Nat) : Int)
         else st0.FocusAbsPosN_value + ((2147483648 : Nat) : Int))) :=
  MoveRelFocuser_target_of_saturating hwOk st0 FOCUS_OUTWARD 2147483648
    (by decide) (by decide) (by decide) (by decide)

/-- C1, evaluated where the code departs from it.  Bound 1000, position 10, outward by
`2^31` ticks: the sum `2147483658` does not fit `int32_t`; the x86-64 conversion yields
`INT32_MIN` (and a wrapping conversion `-2147483638`), so the clamp commands target `0`; the
clamp over the integers is `1000`. -/
theorem MoveRelFocuser_outward_overflow :
    moveCommands (MoveRelFocuser x86_64 hwOk st0 FOCUS_OUTWARD 2147483648).2.2 = [0] ∧
    moveCommands (MoveRelFocuser wrap32 hwOk st0 FOCUS_OUTWARD 2147483648).2.2 = [0] ∧
    ¬ (INT32_MIN ≤ st0.FocusAbsPosN_value + ((2147483648 : Nat) : Int) ∧
      st0.FocusAbsPosN_value + ((2147483648 : Nat) : Int) ≤ INT32_MAX) ∧
    max (0 : Int) (min st0.FocusAbsPosN_max
      (st0.FocusAbsPosN_value + ((2147483648 : Nat) : Int))) = 1000 := by
  refine ⟨by decide, by decide, by decide, by decide⟩

/-- C2 as stated fails for a negative travel bound: with bound `-1` the clamp commands
target `0`, which is above the bound. -/
theorem MoveRelFocuser_negative_max :
    moveCommands (MoveRelFocuser x86_64 hwOk stNegMax FOCUS_INWARD 0).2.2 = [0] ∧
      ¬ (((0 : Nat) : Int) ≤ stNegMax.FocusAbsPosN_max) := by
  decide

/-- C2 (amended): for every travel bound in `[0, INT32_MAX]`, every position reading, every
direction, every delta and every out-of-range behaviour of the conversion, `MoveRelFocuser`
issues exactly one move command and its target `t` satisfies `0 ≤ t ≤ max`. -/
theorem MoveRelFocuser_target_in_travel_range (oor : Int → Int) (hw : EAF) (s : ASIEAF)
    (dir : FocusDirection) (ticks : Nat)
    (hmax0 : 0 ≤ s.FocusAbsPosN_max) (hmax1 : s.FocusAbsPosN_max ≤ INT32_MAX) :
    ∃ t : Nat, moveCommands (MoveRelFocuser oor hw s dir ticks).2.2 = [t] ∧
      (0 : Int) ≤ (t : Int) ∧ (t : Int) ≤ s.FocusAbsPosN_max := by
  refine ⟨_, moveCommands_MoveRelFocuser oor hw s dir ticks, Int.ofNat_nonneg _, ?_⟩
  rw [toInt32_of_inRange oor s.FocusAbsPosN_max (by unfold INT32_MIN; omega) hmax1]
  rw [toUInt32_of_nonneg _ (le_max_left _ _)
    (max_le (by unfold INT32_MAX; omega) (le_trans (min_le_left _ _) hmax1))]
  exact max_le hmax0 (min_le_left _ _)

/-- The amended C2 at bound 1000, position 10, outward by `2^31` ticks on x86-64. -/
theorem MoveRelFocuser_target_in_travel_range_witness :
    ∃ t : Nat,
      moveCommands (MoveRelFocuser x86_64 hwOk st0 FOCUS_OUTWARD 2147483648).2.2 = [t] ∧
      (0 : Int) ≤ (t : Int) ∧ (t : Int) ≤ st0.FocusAbsPosN_max :=
  MoveRelFocuser_target_in_travel_range x86_64 hwOk st0 FOCUS_OUTWARD 2147483648
    (by decide) (by decide)

/-- C3: in every connected tick in which `FocusAbsPosNP` or `FocusRelPosNP` is `IPS_BUSY`
and the hardware reports that the focuser is not moving, both properties end in the settled
state `IPS_OK` (the specification's `Idle`), the absolute position is published in that tick
with its current value, whatever its distance to `lastPos`, and `lastPos` equals the current
position afterwards. -/
theorem TimerHit_completion (hw : EAF) (s : ASIEAF) (hc : s.isConnected = true)
    (hb : s.FocusAbsPosNP_s = IPS_BUSY ∨ s.FocusRelPosNP_s = IPS_BUSY)
    (hm : hw.EAFIsMoving s.m_ID = EAF_SUCCESS false) :
    (TimerHit hw s).1.FocusAbsPosNP_s = IPS_OK ∧
    (TimerHit hw s).1.FocusRelPosNP_s = IPS_OK ∧
    specMotionStatus (TimerHit hw s).1.FocusAbsPosNP_s = MotionStatus.Idle ∧
    specMotionStatus (TimerHit hw s).1.FocusRelPosNP_s = MotionStatus.Idle ∧
    Event.IDSetNumber_FocusAbsPosNP (TimerHit hw s).1.FocusAbsPosN_value IPS_OK
      ∈ (TimerHit hw s).2 ∧
    publishesPosition (TimerHit hw s).2 = true ∧
    (TimerHit hw s).1.lastPos = (TimerHit hw s).1.FocusAbsPosN_value := by
  have hm2 : (isMoving hw s).1 = false := by
    unfold isMoving
    rw [hm]
  obtain ⟨h1, h2, h3, h4, -, h6⟩ := TimerHit_of_isMoving_false hw s hc hb hm2
  refine ⟨h1, h2, ?_, ?_, h3, h4, h6⟩
  · rw [h1]
    rfl
  · rw [h2]
    rfl

/-- C3 on a busy driver at position 10 whose last published position is 10 as well: the
distance is within the telemetry threshold and the position is published all the same. -/
theorem TimerHit_completion_witness :
    |(10 : Int) - stBusy.lastPos| ≤ 5 ∧ hwOk.EAFGetPosition stBusy.m_ID = EAF_SUCCESS 10 ∧
    (TimerHit hwOk stBusy).1.FocusAbsPosNP_s = IPS_OK ∧
    (TimerHit hwOk stBusy).1.FocusRelPosNP_s = IPS_OK ∧
    publishesPosition (TimerHit hwOk stBusy).2 = true ∧
    (TimerHit hwOk stBusy).1.lastPos = (TimerHit hwOk stBusy).1.FocusAbsPosN_value :=
  have h := TimerHit_completion hwOk stBusy rfl (Or.inl rfl) rfl
  ⟨by decide, rfl, h.1, h.2.1, h.2.2.2.2.2.1, h.2.2.2.2.2.2⟩

/-- C4, evaluated where the code departs from it.  Both properties are `IPS_BUSY` and the
is-moving query fails with code 5: `isMoving()` returns `false`, the tick takes the
completion branch, and both properties end `IPS_OK` with "reached requested position"
logged. -/
theorem TimerHit_isMoving_failure :
    hwIsMovingFails.EAFIsMoving stBusy.m_ID = EAF_ERROR 5 ∧
    stBusy.FocusAbsPosNP_s = IPS_BUSY ∧ stBusy.FocusRelPosNP_s = IPS_BUSY ∧
    (TimerHit hwIsMovingFails stBusy).1.FocusAbsPosNP_s = IPS_OK ∧
    (TimerHit hwIsMovingFails stBusy).1.FocusRelPosNP_s = IPS_OK ∧
    Event.LOG_INFO ∈ (TimerHit hwIsMovingFails stBusy).2 :=
  have h := TimerHit_of_isMoving_false hwIsMovingFails stBusy rfl (Or.inl rfl) rfl
  ⟨rfl, rfl, rfl, h.1, h.2.1, h.2.2.2.2.1⟩

/-- C5: in every connected tick whose position read succeeds with value `p` and in which
no completion is detected (no property is `IPS_BUSY`, or the hardware reports motion), the
position is published if and only if `|p - lastPos| > 5`; when it is published `lastPos`
becomes `p` (and the published value is `p`), and when it is not `lastPos` is unchanged. -/
theorem TimerHit_position_filter (hw : EAF) (s : ASIEAF) (p : Int)
    (hc : s.isConnected = true)
    (hp : hw.EAFGetPosition s.m_ID = EAF_SUCCESS p)
    (hn : (s.FocusAbsPosNP_s ≠ IPS_BUSY ∧ s.FocusRelPosNP_s ≠ IPS_BUSY) ∨
      hw.EAFIsMoving s.m_ID = EAF_SUCCESS true) :
    (publishesPosition (TimerHit hw s).2 = true ↔ |p - s.lastPos| > 5) ∧
    (|p - s.lastPos| > 5 → (TimerHit hw s).1.lastPos = p ∧
      Event.IDSetNumber_FocusAbsPosNP p s.FocusAbsPosNP_s ∈ (TimerHit hw s).2) ∧
    (¬ |p - s.lastPos| > 5 → (TimerHit hw s).1.lastPos = s.lastPos) := by
  obtain ⟨hp1, hp2, hp3, -⟩ := timerPosition_frame hw s
  obtain ⟨ht1, ht2, ht3, -, ht5, ht6⟩ := timerTemperature_frame hw (timerPosition hw s).1
  have hn2 : ((timerTemperature hw (timerPosition hw s).1).1.FocusAbsPosNP_s ≠ IPS_BUSY ∧
      (timerTemperature hw (timerPosition hw s).1).1.FocusRelPosNP_s ≠ IPS_BUSY) ∨
      hw.EAFIsMoving (timerTemperature hw (timerPosition hw s).1).1.m_ID
        = EAF_SUCCESS true := by
    rw [ht1, ht2, ht3, hp1, hp2, hp3]
    exact hn
  obtain ⟨hm1, hm2⟩ := timerMotion_of_no_completion hw _ hn2
  rw [TimerHit_eq]
  simp only [hc, Bool.not_true, Bool.false_eq_true, if_false]
  rw [hm1, ht5]
  rw [publishesPosition_append, publishesPosition_append, publishesPosition_append, ht6, hm2,
    abs_sub_comm p s.lastPos, timerPosition_of_success hw s p hp]
  split_ifs with h <;> simp [publishesPosition, h]

/-- C5 on the scenario of the specification: last published position 100; a read of 104 is
not published and leaves `lastPos` at 100; a read of 106 is published and `lastPos` becomes
106. -/
theorem TimerHit_position_filter_witness :
    (publishesPosition (TimerHit (hwPosition 104) st100).2 = false ∧
      (TimerHit (hwPosition 104) st100).1.lastPos = 100) ∧
    (publishesPosition (TimerHit (hwPosition 106) st100).2 = true ∧
      (TimerHit (hwPosition 106) st100).1.lastPos = 106) := by
  have h4 := TimerHit_position_filter (hwPosition 104) st100 104 rfl rfl
    (Or.inl ⟨by decide, by decide⟩)
  have h6 := TimerHit_position_filter (hwPosition 106) st100 106 rfl rfl
    (Or.inl ⟨by decide, by decide⟩)
  have hnear : ¬ |(104 : Int) - st100.lastPos| > 5 := by decide
  have hfar : |(106 : Int) - st100.lastPos| > 5 := by decide
  refine ⟨⟨?_, h4.2.2 hnear⟩, ⟨h6.1.mpr hfar, (h6.2.1 hfar).1⟩⟩
  cases hpub : publishesPosition (TimerHit (hwPosition 104) st100).2
  · rfl
  · exact absurd (h4.1.mp hpub) hnear

/-- C6: `AbortFocuser` returns `false` whenever `EAFStop` fails and `true` when it succeeds,
and in both cases every member of the object, the two motion states included, is left as it
was; the only action is the stop command (and the error log on failure).  The settled state
is reached afterwards by a connected poll tick that sees the hardware at rest. -/
theorem AbortFocuser_effect (hw : EAF) (s : ASIEAF) :
    (AbortFocuser hw s).2.1 = s ∧
    (AbortFocuser hw s).2.1.FocusAbsPosNP_s = s.FocusAbsPosNP_s ∧
    (AbortFocuser hw s).2.1.FocusRelPosNP_s = s.FocusRelPosNP_s ∧
    (∀ rc, hw.EAFStop s.m_ID = EAF_ERROR rc →
      (AbortFocuser hw s).1 = false ∧
      (AbortFocuser hw s).2.2 = [Event.callEAFStop s.m_ID, Event.LOGF_ERROR rc]) ∧
    (∀ u, hw.EAFStop s.m_ID = EAF_SUCCESS u →
      (AbortFocuser hw s).1 = true ∧
      (AbortFocuser hw s).2.2 = [Event.callEAFStop s.m_ID]) ∧
    (∀ hw2 : EAF, s.isConnected = true →
      (s.FocusAbsPosNP_s = IPS_BUSY ∨ s.FocusRelPosNP_s = IPS_BUSY) →
      hw2.EAFIsMoving s.m_ID = EAF_SUCCESS false →
      (TimerHit hw2 (AbortFocuser hw s).2.1).1.FocusAbsPosNP_s = IPS_OK ∧
      (TimerHit hw2 (AbortFocuser hw s).2.1).1.FocusRelPosNP_s = IPS_OK) := by
  have hs : (AbortFocuser hw s).2.1 = s := by
    unfold AbortFocuser
    cases hw.EAFStop s.m_ID <;> rfl
  refine ⟨hs, by rw [hs], by rw [hs], ?_, ?_, ?_⟩
  · intro rc hrc
    simp [AbortFocuser, hrc]
  · intro u hu
    simp [AbortFocuser, hu]
  · intro hw2 hc hb hm
    rw [hs]
    have hm2 : (isMoving hw2 s).1 = false := by
      unfold isMoving
      rw [hm]
    exact ⟨(TimerHit_of_isMoving_false hw2 s hc hb hm2).1,
      (TimerHit_of_isMoving_false hw2 s hc hb hm2).2.1⟩

/-- C6 on a busy driver whose stop command fails: failure is returned, both motion states
stay `IPS_BUSY`, and the next tick that sees the hardware at rest settles them. -/
theorem AbortFocuser_effect_witness :
    (AbortFocuser hwStopFails stBusy).1 = false ∧
    (AbortFocuser hwStopFails stBusy).2.1.FocusAbsPosNP_s = IPS_BUSY ∧
    (AbortFocuser hwStopFails stBusy).2.1.FocusRelPosNP_s = IPS_BUSY ∧
    (TimerHit hwOk (AbortFocuser hwStopFails stBusy).2.1).1.FocusAbsPosNP_s = IPS_OK :=
  ⟨((AbortFocuser_effect hwStopFails stBusy).2.2.2.1 3 rfl).1,
   (AbortFocuser_effect hwStopFails stBusy).2.1,
   (AbortFocuser_effect hwStopFails stBusy).2.2.1,
   ((AbortFocuser_effect hwStopFails stBusy).2.2.2.2.2 hwOk rfl (Or.inl rfl) rfl).1⟩

/-- C7, evaluated where the code departs from it.  The device opens but the maximum-step
read fails (code 1) while the cached bound is 1000: `Connect` discards the result of
`readMaxPosition()` and returns `true`, the hardware reported no maximum step, and the bound
is still the cached 1000. -/
theorem Connect_keeps_cached_max :
    (Connect hwNoMaxStep st0).1 = true ∧
    (Connect hwNoMaxStep st0).2.1.FocusAbsPosN_max = 1000 ∧
    ¬ ∃ m, hwNoMaxStep.EAFGetMaxStep st0.m_ID = EAF_SUCCESS m ∧
      (Connect hwNoMaxStep st0).2.1.FocusAbsPosN_max = m := by
  refine ⟨by decide, by decide, ?_⟩
  rintro ⟨m, hm, _⟩
  exact absurd hm (by simp [hwNoMaxStep])

/-- The three paths of `Connect`.  When it returns `true` and the SDK reports a maximum step
`m`, the bound afterwards is `m`, whatever it was before.  When the open succeeds and the
maximum-step read fails, the failure is not returned: the result is `true` and the object is
unchanged.  When the open fails, the result is `false` and the object, the bound included,
is unchanged. -/
theorem Connect_effect (hw : EAF) (s : ASIEAF) :
    (∀ m, (Connect hw s).1 = true → hw.EAFGetMaxStep s.m_ID = EAF_SUCCESS m →
      (Connect hw s).2.1.FocusAbsPosN_max = m ∧
      (Connect hw s).2.1 = { s with FocusAbsPosN_max := m }) ∧
    (∀ u rc, hw.EAFOpen s.m_ID = EAF_SUCCESS u → hw.EAFGetMaxStep s.m_ID = EAF_ERROR rc →
      (Connect hw s).1 = true ∧ (Connect hw s).2.1 = s) ∧
    (∀ rc, hw.EAFOpen s.m_ID = EAF_ERROR rc →
      (Connect hw s).1 = false ∧ (Connect hw s).2.1 = s ∧
      (Connect hw s).2.1.FocusAbsPosN_max = s.FocusAbsPosN_max) := by
  unfold Connect readMaxPosition
  cases h : hw.EAFOpen s.m_ID <;> cases h2 : hw.EAFGetMaxStep s.m_ID <;> simp

/-- The scenario of the specification: cached bound 1000, hardware reports 50000, the bound
becomes 50000; and with a failing open the bound stays 1000. -/
theorem Connect_effect_witness :
    ((Connect hwOk st0).1 = true ∧ (Connect hwOk st0).2.1.FocusAbsPosN_max = 50000) ∧
    ((Connect hwOpenFails st0).1 = false ∧
      (Connect hwOpenFails st0).2.1.FocusAbsPosN_max = 1000) :=
  ⟨⟨by decide, ((Connect_effect hwOk st0).1 50000 (by decide) rfl).1⟩,
   ⟨((Connect_effect hwOpenFails st0).2.2 2 rfl).1,
    ((Connect_effect hwOpenFails st0).2.2 2 rfl).2.2⟩⟩

/-- C8, evaluated where the code departs from it.  The temperature read succeeds with the
invalid reading `-273` while `lastTemperature` is 20: the tick publishes `-273` and
`lastTemperature` becomes `-273`. -/
theorem TimerHit_publishes_sentinel :
    hwSentinel.EAFGetTemp st0.m_ID = EAF_SUCCESS (-273) ∧
    st0.lastTemperature = 20 ∧
    publishesTemperature (TimerHit hwSentinel st0).2 = true ∧
    Event.IDSetNumber_TemperatureNP (-273) IPS_OK ∈ (TimerHit hwSentinel st0).2 ∧
    (TimerHit hwSentinel st0).1.lastTemperature = -273 := by
  have hfar : |st0.lastTemperature - (-273)| ≥ DBL_0_1 := by
    norm_num [st0, DBL_0_1, abs_of_nonneg]
  have h := TimerHit_temperature_filter hwSentinel st0 (-273) rfl rfl
  exact ⟨rfl, rfl, h.1.mpr hfar, (h.2.1 hfar).2, (h.2.1 hfar).1⟩

/-- C9: for every target, whatever the travel bound, `MoveAbsFocuser` issues exactly one move
command, carrying the requested target unchanged, and queries nothing else; the target is
recorded in `targetPos` and no other member changes (in particular neither
`FocusAbsPosN[0].value` nor `lastPos`); the call returns `IPS_BUSY` when the SDK accepts the
command and `IPS_ALERT` when it fails. -/
theorem MoveAbsFocuser_effect (hw : EAF) (s : ASIEAF) (targetTicks : Nat) :
    moveCommands (MoveAbsFocuser hw s targetTicks).2.2 = [targetTicks] ∧
    (MoveAbsFocuser hw s targetTicks).2.1 = { s with targetPos := targetTicks } ∧
    (MoveAbsFocuser hw s targetTicks).2.1.FocusAbsPosN_value = s.FocusAbsPosN_value ∧
    (MoveAbsFocuser hw s targetTicks).2.1.lastPos = s.lastPos ∧
    (∀ u, hw.EAFMove s.m_ID targetTicks = EAF_SUCCESS u →
      (MoveAbsFocuser hw s targetTicks).1 = IPS_BUSY ∧
      (MoveAbsFocuser hw s targetTicks).2.1.targetPos = targetTicks ∧
      (MoveAbsFocuser hw s targetTicks).2.2 = [Event.callEAFMove s.m_ID targetTicks]) ∧
    (∀ rc, hw.EAFMove s.m_ID targetTicks = EAF_ERROR rc →
      (MoveAbsFocuser hw s targetTicks).1 = IPS_ALERT ∧
      (MoveAbsFocuser hw s targetTicks).2.2 =
        [Event.callEAFMove s.m_ID targetTicks, Event.LOGF_ERROR rc]) := by
  refine ⟨?_, ?_, ?_, ?_, ?_, ?_⟩
  · unfold MoveAbsFocuser
    simp only []
    split_ifs <;> exact moveCommands_gotoAbsolute _ _ _
  · unfold MoveAbsFocuser
    simp only []
    split_ifs <;> rfl
  · unfold MoveAbsFocuser
    simp only []
    split_ifs <;> rfl
  · unfold MoveAbsFocuser
    simp only []
    split_ifs <;> rfl
  · intro u hu
    simp [MoveAbsFocuser, gotoAbsolute, hu]
  · intro rc hrc
    simp [MoveAbsFocuser, gotoAbsolute, hrc]

/-- C9 at a target far above the travel bound (5000 of 1000), accepted and refused. -/
theorem MoveAbsFocuser_effect_witness :
    ((MoveAbsFocuser hwOk st0 5000).1 = IPS_BUSY ∧
      (MoveAbsFocuser hwOk st0 5000).2.1.targetPos = 5000 ∧
      (MoveAbsFocuser hwOk st0 5000).2.2 = [Event.callEAFMove st0.m_ID 5000]) ∧
    ((MoveAbsFocuser hwMoveFails st0 5000).1 = IPS_ALERT ∧
      (MoveAbsFocuser hwMoveFails st0 5000).2.2 =
        [Event.callEAFMove st0.m_ID 5000, Event.LOGF_ERROR 7]) :=
  ⟨(MoveAbsFocuser_effect hwOk st0 5000).2.2.2.2.1 () rfl,
   (MoveAbsFocuser_effect hwMoveFails st0 5000).2.2.2.2.2 7 rfl⟩

/-- C10: for every state, direction and delta (and every out-of-range behaviour of the
conversion), `MoveRelFocuser` issues one move command with some target `t`.  If the SDK
accepts it the call returns `IPS_BUSY`, `FocusRelPosN[0].value` is the requested `ticks`,
`FocusRelPosNP.s` is `IPS_BUSY` and nothing else changes.  If the SDK refuses it the call
returns `IPS_ALERT` and the object is unchanged: `FocusRelPosN[0].value`, `FocusRelPosNP.s`,
`FocusAbsPosN[0].value` and `lastPos` keep their values. -/
theorem MoveRelFocuser_effect (oor : Int → Int) (hw : EAF) (s : ASIEAF)
    (dir : FocusDirection) (ticks : Nat) :
    ∃ t : Nat, moveCommands (MoveRelFocuser oor hw s dir ticks).2.2 = [t] ∧
    (∀ u, hw.EAFMove s.m_ID t = EAF_SUCCESS u →
      (MoveRelFocuser oor hw s dir ticks).1 = IPS_BUSY ∧
      (MoveRelFocuser oor hw s dir ticks).2.1.FocusRelPosN_value = (ticks : Int) ∧
      (MoveRelFocuser oor hw s dir ticks).2.1.FocusRelPosNP_s = IPS_BUSY ∧
      (MoveRelFocuser oor hw s dir ticks).2.1 =
        { s with FocusRelPosN_value := (ticks : Int), FocusRelPosNP_s := IPS_BUSY }) ∧
    (∀ rc, hw.EAFMove s.m_ID t = EAF_ERROR rc →
      (MoveRelFocuser oor hw s dir ticks).1 = IPS_ALERT ∧
      (MoveRelFocuser oor hw s dir ticks).2.1 = s ∧
      (MoveRelFocuser oor hw s dir ticks).2.1.FocusRelPosN_value = s.FocusRelPosN_value ∧
      (MoveRelFocuser oor hw s dir ticks).2.1.FocusRelPosNP_s = s.FocusRelPosNP_s ∧
      (MoveRelFocuser oor hw s dir ticks).2.1.FocusAbsPosN_value = s.FocusAbsPosN_value ∧
      (MoveRelFocuser oor hw s dir ticks).2.1.lastPos = s.lastPos) := by
  refine ⟨_, moveCommands_MoveRelFocuser oor hw s dir ticks, ?_, ?_⟩
  · intro u hu
    cases dir <;> simp [MoveRelFocuser, gotoAbsolute] at hu ⊢ <;> simp [hu]
  · intro rc hrc
    cases dir <;> simp [MoveRelFocuser, gotoAbsolute] at hrc ⊢ <;> simp [hrc]

/-- C10 at bound 1000, position 10, inward by 50: accepted (requested delta 50 recorded,
although the clamped move covers only 10 ticks) and refused (nothing changes). -/
theorem MoveRelFocuser_effect_witness :
    ((MoveRelFocuser x86_64 hwOk st0 FOCUS_INWARD 50).1 = IPS_BUSY ∧
      (MoveRelFocuser x86_64 hwOk st0 FOCUS_INWARD 50).2.1.FocusRelPosN_value = 50 ∧
      (MoveRelFocuser x86_64 hwOk st0 FOCUS_INWARD 50).2.1.FocusRelPosNP_s = IPS_BUSY) ∧
    ((MoveRelFocuser x86_64 hwMoveFails st0 FOCUS_INWARD 50).1 = IPS_ALERT ∧
      (MoveRelFocuser x86_64 hwMoveFails st0 FOCUS_INWARD 50).2.1 = st0) := by
  obtain ⟨t, _, hs, _⟩ := MoveRelFocuser_effect x86_64 hwOk st0 FOCUS_INWARD 50
  obtain ⟨t2, _, _, hf⟩ := MoveRelFocuser_effect x86_64 hwMoveFails st0 FOCUS_INWARD 50
  have h1 := hs () rfl
  have h2 := hf 7 rfl
  exact ⟨⟨h1.1, h1.2.1, h1.2.2.1⟩, ⟨h2.1, h2.2.1⟩⟩
